import Mathlib

/-!
Verification of the Privilee map-page end-to-end test suite.

The repository consists of a Playwright run configuration
(playwright.config.ts) and one scenario file driving a browser against
the "/map" page of the configured origin. Each scenario is embedded
shallowly as a function from an observation record (the values the
browser reports to the script: element counts, visibilities, texts,
timings) to an `Except String Unit` computation that mirrors the
scenario body statement by statement: each `expect(...)` becomes an
`expectThat` step, a failing step aborts the rest of the body, and the
scenario passes exactly when the computation returns `Except.ok`.
-/

/-- One assertion step: `expect` in the source. A failing expectation
throws, aborting the remainder of the scenario body. -/
def expectThat (b : Bool) (msg : String) : Except String Unit :=
  if b then Except.ok () else Except.error msg

/-- A scenario passes when its body ran to the end without a failed
expectation or a thrown error. -/
def scenarioPasses (r : Except String Unit) : Bool :=
  match r with
  | Except.ok _ => true
  | Except.error _ => false

theorem scenarioPasses_bind (r : Except String Unit) (k : Unit → Except String Unit) :
    scenarioPasses (r >>= k) = (scenarioPasses r && scenarioPasses (k ())) := by
  cases r with
  | ok a => cases a; rfl
  | error e => rfl

theorem scenarioPasses_expectThat (b : Bool) (msg : String) :
    scenarioPasses (expectThat b msg) = b := by
  cases b <;> rfl

/-! ## Run configuration (playwright.config.ts) -/

/-- JavaScript truthiness of `process.env.CI`: an environment variable is
falsy when absent (`undefined`) or the empty string. `!!process.env.CI`
and `process.env.CI ? a : b` both branch on this. -/
def envTruthy : Option String → Bool
  | none => false
  | some s => decide (s ≠ "")

structure RunConfig where
  testDir : String
  fullyParallel : Bool
  forbidOnly : Bool
  retries : Nat
  /-- `none` models `undefined`: the host-default (unbounded) worker count. -/
  workers : Option Nat
  baseURL : String
  trace : String
  screenshot : String

/-- The exported `defineConfig` object of playwright.config.ts, as a
function of the `CI` environment variable. -/
def playwrightConfig (ci : Option String) : RunConfig :=
  { testDir := "./tests"
  , fullyParallel := true
  , forbidOnly := envTruthy ci
  , retries := if envTruthy ci then 1 else 0
  , workers := if envTruthy ci then some 1 else none
  , baseURL := "https://staging-website.privilee.ae"
  , trace := "on-first-retry"
  , screenshot := "only-on-failure" }

/-! ## Scenario: should load page with all core UI elements visible -/

/-- What the browser reports to the core-elements scenario. `getByRole`
matches only elements that are not hidden in the accessibility tree, so
`filterCount` counts non-hidden category-filter buttons. -/
structure CoreObs where
  /-- `locator("header").first()` is visible. -/
  headerVisible : Bool
  /-- the first `.mapboxgl-map, .mapboxgl-canvas` match became visible
  within the 15000 ms timeout. -/
  mapCanvasVisible : Bool
  /-- count of buttons whose accessible name matches
  pool, fitness, family, dining or waterpark (case-insensitive). -/
  filterCount : Nat
  /-- the first link whose name matches join is visible. -/
  joinCTAVisible : Bool

def coreElementsScenario (o : CoreObs) : Except String Unit := do
  expectThat o.headerVisible "header should be visible"
  expectThat o.mapCanvasVisible "map canvas should be visible within 15000 ms"
  expectThat (decide (1 ≤ o.filterCount)) "filter button count should be at least 1"
  expectThat o.joinCTAVisible "join call to action should be visible"

/-! ## Scenario: should toggle category filters and update venue display -/

structure FilterObs where
  /-- each of the five category buttons became visible within 10000 ms. -/
  poolBeachBtnVisible : Bool
  fitnessBtnVisible : Bool
  familyActivitiesBtnVisible : Bool
  diningBtnVisible : Bool
  waterparksBtnVisible : Bool
  /-- the venue-count heading locator resolved when read after the
  Pool and beach click (textContent would otherwise time out). -/
  headingFoundFirst : Bool
  /-- text content read after clicking Pool and beach. -/
  initialText : Option String
  /-- the heading locator resolved again after the Fitness click. -/
  headingFoundSecond : Bool
  /-- text content read after clicking Fitness. -/
  updatedText : Option String

def filterToggleScenario (o : FilterObs) : Except String Unit := do
  expectThat o.poolBeachBtnVisible "Pool and beach button should be visible"
  expectThat o.fitnessBtnVisible "Fitness button should be visible"
  expectThat o.familyActivitiesBtnVisible "Family activities button should be visible"
  expectThat o.diningBtnVisible "Dining button should be visible"
  expectThat o.waterparksBtnVisible "Waterparks button should be visible"
  -- poolFilter.click(); waitForTimeout(1000); read venueHeading.textContent()
  if o.headingFoundFirst then pure () else throw "timed out reading venue heading"
  -- fitnessFilter.click(); waitForTimeout(1000); read venueHeading.textContent()
  if o.headingFoundSecond then pure () else throw "timed out reading venue heading"
  expectThat (decide (o.updatedText ≠ o.initialText)) "venue heading text should change"

/-! ## Scenario: should render interactive Mapbox map -/

/-- Rendered geometry of the canvas, as `boundingBox()` reports it. -/
structure BoundingBox where
  x : Int
  y : Int
  width : Int
  height : Int

structure MapObs where
  /-- `.mapboxgl-map` became visible within 15000 ms. -/
  mapContainerVisible : Bool
  /-- `.mapboxgl-canvas` is attached. -/
  canvasAttached : Bool
  /-- count of `.mapboxgl-ctrl-zoom-in` matches. -/
  zoomInCount : Nat
  /-- the click on the zoom-in control completed without error. -/
  zoomInClickOk : Bool
  /-- the click on the zoom-out control completed without error. -/
  zoomOutClickOk : Bool
  /-- `canvas.boundingBox()`: `none` models a null box. -/
  boundingBox : Option BoundingBox

def mapInteractiveScenario (o : MapObs) : Except String Unit := do
  expectThat o.mapContainerVisible "map container should be visible within 15000 ms"
  expectThat o.canvasAttached "map canvas should be attached"
  if 0 < o.zoomInCount then do
    if o.zoomInClickOk then pure () else throw "zoom in click failed"
    -- waitForTimeout(500)
    if o.zoomOutClickOk then pure () else throw "zoom out click failed"
  else
    match o.boundingBox with
    | none => throw "bounding box should not be null"
    | some box => do
        expectThat (decide (0 < box.width)) "canvas width should be greater than 0"
        expectThat (decide (0 < box.height)) "canvas height should be greater than 0"

/-! ## Scenario: should load within acceptable performance thresholds -/

/-- What one run of the load-performance scenario observes. The wall-clock
durations are differences of `Date.now()` readings against the `startTime`
taken just before `page.goto`; the remaining fields are read from the
`PerformanceNavigationTiming` entry of the loaded page. All values are in
milliseconds. -/
structure PerfObs where
  /-- `Date.now() - startTime` once `goto` with waitUntil domcontentloaded resolves. -/
  domLoadTime : Int
  /-- `.mapboxgl-canvas` became attached within the 15000 ms timeout. -/
  mapAttached : Bool
  /-- `Date.now() - startTime` once the canvas is attached. -/
  mapRenderTime : Int
  /-- `navigation.startTime` of the timing entry. -/
  navStartTime : Int
  domContentLoadedEventEnd : Int
  loadEventEnd : Int
  responseStart : Int
  requestStart : Int

/-- The object computed inside `page.evaluate` from the navigation
timing entry. -/
structure PerfMetrics where
  domContentLoaded : Int
  loadComplete : Int
  ttfb : Int

def computeMetrics (o : PerfObs) : PerfMetrics :=
  { domContentLoaded := o.domContentLoadedEventEnd - o.navStartTime
  , loadComplete := o.loadEventEnd - o.navStartTime
  , ttfb := o.responseStart - o.requestStart }

def loadPerformanceScenario (o : PerfObs) : Except String Unit := do
  expectThat (decide (o.domLoadTime < 8000)) "dom load time should be below 8000 ms"
  expectThat o.mapAttached "map canvas should be attached within 15000 ms"
  expectThat (decide (o.mapRenderTime < 15000)) "map render time should be below 15000 ms"
  expectThat (decide ((computeMetrics o).ttfb < 2000)) "ttfb should be below 2000 ms"

/-- Stated from the spec for comparison with `computeMetrics`: the spec
reads the time-to-first-byte as measured from navigation start on the
same page load, i.e. `responseStart` relative to the timing entry's own
start time. -/
def ttfbFromNavigationStart (o : PerfObs) : Int :=
  o.responseStart - o.navStartTime

/-! ## Scenario: should display venue data after loading -/

/-- The first maximal run of decimal digits in a character list, mirroring
the regular expression match for one-or-more digits. -/
def firstDigitRun : List Char → Option (List Char)
  | [] => none
  | c :: cs =>
      if c.isDigit then some (c :: cs.takeWhile Char.isDigit)
      else firstDigitRun cs

/-- Decimal value of a digit list, as `parseInt(run, 10)` computes it. -/
def parseDigits (ds : List Char) : Nat :=
  ds.foldl (fun a c => a * 10 + (c.toNat - 48)) 0

/-- `btnText.match` for the first digit group followed by `parseInt`:
the first number appearing in the string, if any. -/
def firstNumber (s : String) : Option Nat :=
  (firstDigitRun s.toList).map parseDigits

structure VenueObs where
  /-- count of elements with the text Loading venues. -/
  loadingCount : Nat
  /-- the loading text became hidden within the 15000 ms timeout. -/
  loadingHiddenInTime : Bool
  /-- count of buttons whose accessible name matches show-then-venue. -/
  showVenuesBtnCount : Nat
  /-- `textContent()` of the show-venues button; `none` models null. -/
  showVenuesBtnText : Option String
  /-- count of images matching the prismic-src, venue-src or alt selectors. -/
  imageCount : Nat

/-- The number the scenario would parse from the show-venues button label:
a null text short-circuits the optional chain, a label with no digits
leaves the match falsy. -/
def parsedVenueCount (o : VenueObs) : Option Nat :=
  o.showVenuesBtnText.bind firstNumber

def venueDataScenario (o : VenueObs) : Except String Unit := do
  if 0 < o.loadingCount then
    expectThat o.loadingHiddenInTime "loading text should be hidden within 15000 ms"
  if 0 < o.showVenuesBtnCount then
    match parsedVenueCount o with
    | some n => expectThat (decide (0 < n)) "venue count should be greater than 0"
    | none => pure ()
  expectThat (decide (0 < o.imageCount)) "image count should be greater than 0"

/-! ## Scenario: should have correct navigation links in header -/

/-- A link element as the navigation scenario inspects it. -/
structure LinkObs where
  attached : Bool
  visible : Bool
  /-- the href attribute; `none` models a missing attribute (null). -/
  href : Option String

/-- JavaScript truthiness of `getAttribute` output: null and the empty
string are falsy. -/
def hrefTruthy : Option String → Bool
  | none => false
  | some s => decide (s ≠ "")

/-- `toMatch` against the anchored leading-slash pattern: the string
starts with a slash character. -/
def hrefRootRelative : Option String → Bool
  | none => false
  | some s =>
      match s.toList with
      | [] => false
      | c :: _ => decide (c = '/')

/-- What the page reports for the navigation-links scenario: for each
expected accessible-name pattern, the links matching it, in locator
resolution order. -/
structure NavObs where
  poolBeachLinks : List LinkObs
  gymFitnessLinks : List LinkObs
  familyLinks : List LinkObs
  diningLinks : List LinkObs
  joinNowLinks : List LinkObs

/-- The body of the per-item loop: `first()` on the matching links, then
the attached, truthy-href and root-relative assertions in order. An empty
match list makes the attached assertion time out. -/
def checkNavItem (links : List LinkObs) : Except String Unit := do
  match links.head? with
  | none => throw "nav link should be attached but none matched"
  | some l => do
      expectThat l.attached "nav link should be attached"
      expectThat (hrefTruthy l.href) "nav link href should be truthy"
      expectThat (hrefRootRelative l.href) "nav link href should start with a slash"

def navLinksScenario (o : NavObs) : Except String Unit := do
  checkNavItem o.poolBeachLinks
  checkNavItem o.gymFitnessLinks
  checkNavItem o.familyLinks
  checkNavItem o.diningLinks
  match o.joinNowLinks.head? with
  | none => throw "join now link should be visible but none matched"
  | some j => do
      expectThat j.visible "join now link should be visible"
      expectThat (hrefTruthy j.href) "join now href should be truthy"

/-! ## Scenario: should display correctly on mobile viewport

This scenario is the only one that creates a browser context by hand,
so it is embedded as a trace of browser actions run by an interpreter
that counts open contexts: a failed expectation aborts the remaining
actions, exactly as a thrown assertion skips the rest of the body. -/

structure ViewportSize where
  width : Nat
  height : Nat

structure ContextOptions where
  viewport : ViewportSize
  userAgent : String

/-- The options passed to `browser.newContext` in the mobile scenario. -/
def mobileContextOptions : ContextOptions :=
  { viewport := { width := 375, height := 812 }
  , userAgent := "Mozilla/5.0 (iPhone; CPU iPhone OS 16_0 like Mac OS X) AppleWebKit/605.1.15 (KHTML, like Gecko) Version/16.0 Mobile/15E148 Safari/604.1" }

structure MobileObs where
  /-- count of menu-toggle-like elements matched by the aria-label,
  hamburger, menu-toggle and header-button selectors. -/
  menuToggleCount : Nat
  /-- the first map canvas match became visible within 15000 ms. -/
  mapCanvasVisible : Bool
  /-- `document.documentElement.scrollWidth`. -/
  scrollWidth : Int
  /-- `window.innerWidth`. -/
  innerWidth : Int

/-- `scrollWidth > innerWidth`, evaluated in the page. -/
def hasHorizontalOverflow (o : MobileObs) : Bool :=
  decide (o.innerWidth < o.scrollWidth)

inductive BrowserAction where
  | newContext (opts : ContextOptions)
  | newPage
  | goto (path : String)
  | waitForLoadState (state : String)
  /-- an `expect` whose outcome on this run is `ok`. -/
  | expectStep (ok : Bool)
  | closeContext

/-- The mobile-viewport scenario body as the sequence of browser actions
the source performs, with each expectation's outcome taken from the
observations. -/
def mobileViewportActions (o : MobileObs) : List BrowserAction :=
  [ BrowserAction.newContext mobileContextOptions
  , BrowserAction.newPage
  , BrowserAction.goto "/map"
  , BrowserAction.waitForLoadState "networkidle"
  , BrowserAction.expectStep (decide (0 < o.menuToggleCount))
  , BrowserAction.expectStep o.mapCanvasVisible
  , BrowserAction.expectStep (!hasHorizontalOverflow o)
  , BrowserAction.closeContext ]

/-- Run a scenario body: `opened` counts the browser contexts the body
created and has not closed. A failed expectation throws, so the
remaining actions of the body are not executed. Returns whether the
scenario passed and how many contexts are still open when it ends. -/
def runActions (opened : Nat) : List BrowserAction → Bool × Nat
  | [] => (true, opened)
  | BrowserAction.newContext _ :: rest => runActions (opened + 1) rest
  | BrowserAction.closeContext :: rest => runActions (opened - 1) rest
  | BrowserAction.expectStep ok :: rest =>
      if ok then runActions opened rest else (false, opened)
  | BrowserAction.newPage :: rest => runActions opened rest
  | BrowserAction.goto _ :: rest => runActions opened rest
  | BrowserAction.waitForLoadState _ :: rest => runActions opened rest

/-- One run of the mobile-viewport scenario: pass/fail outcome and the
number of manually created contexts left open at the end of the body. -/
def mobileViewportRun (o : MobileObs) : Bool × Nat :=
  runActions 0 (mobileViewportActions o)

/-! ## Helper lemmas -/

theorem scenarioPasses_pure : scenarioPasses (pure () : Except String Unit) = true := rfl

theorem scenarioPasses_throw (e : String) :
    scenarioPasses (throw e : Except String Unit) = false := rfl

/-- The per-item check of the navigation scenario succeeds exactly when a
first match exists, is attached, and carries a non-empty root-relative
href. -/
def navItemOk (links : List LinkObs) : Prop :=
  ∃ l, links.head? = some l ∧ l.attached = true ∧
    hrefTruthy l.href = true ∧ hrefRootRelative l.href = true

theorem scenarioPasses_checkNavItem (links : List LinkObs) :
    scenarioPasses (checkNavItem links) = true ↔ navItemOk links := by
  cases links with
  | nil =>
      simp [checkNavItem, navItemOk, scenarioPasses_throw]
  | cons l rest =>
      simp [checkNavItem, navItemOk, scenarioPasses_bind, scenarioPasses_expectThat,
        List.head?]

/-! ## Claim theorems -/

/-- C3: the core-elements scenario passes exactly when the header is
visible, the map surface became visible within its 15s timeout, at least
one category-filter control matched (getByRole matches only non-hidden
elements), and the join call-to-action link is visible. In particular it
passes only if all four hold. -/
theorem coreElements_passes_iff (o : CoreObs) :
    scenarioPasses (coreElementsScenario o) = true ↔
      (o.headerVisible = true ∧ o.mapCanvasVisible = true ∧
        1 ≤ o.filterCount ∧ o.joinCTAVisible = true) := by
  simp [coreElementsScenario, scenarioPasses_bind, scenarioPasses_expectThat]

/-- C5: the run configuration as a function of the CI environment flag:
forbidOnly is enabled exactly when the flag is set (truthy), retries are
1 exactly when it is set and 0 exactly when it is not, and workers are
serialized to 1 exactly when it is set and left at the unbounded host
default (undefined) exactly when it is not. -/
theorem playwrightConfig_ci_policy (ci : Option String) :
    ((playwrightConfig ci).forbidOnly = true ↔ envTruthy ci = true) ∧
    ((playwrightConfig ci).retries = 1 ↔ envTruthy ci = true) ∧
    ((playwrightConfig ci).retries = 0 ↔ envTruthy ci = false) ∧
    ((playwrightConfig ci).workers = some 1 ↔ envTruthy ci = true) ∧
    ((playwrightConfig ci).workers = none ↔ envTruthy ci = false) := by
  cases h : envTruthy ci <;> simp [playwrightConfig, h]

/-- C10: the load-complete duration is computed from the navigation
timing entry as loadEventEnd minus navigation start, but no assertion
reads it: the pass/fail outcome of the load-performance scenario is the
same whatever value loadEventEnd takes. -/
theorem loadPerformance_ignores_loadComplete (o : PerfObs) (v : Int) :
    (computeMetrics { o with loadEventEnd := v }).loadComplete = v - o.navStartTime ∧
    scenarioPasses (loadPerformanceScenario { o with loadEventEnd := v }) =
      scenarioPasses (loadPerformanceScenario o) :=
  ⟨rfl, rfl⟩

/-- A run that passes the load-performance scenario although its
time-to-first-byte measured from navigation start is 2600 ms: the
request itself only started 1200 ms after navigation start, and the
asserted metric is responseStart minus requestStart = 1400 ms. -/
def perfNavStartEx : PerfObs :=
  { domLoadTime := 3200
  , mapAttached := true
  , mapRenderTime := 5200
  , navStartTime := 0
  , domContentLoadedEventEnd := 3100
  , loadEventEnd := 6000
  , responseStart := 2600
  , requestStart := 1200 }

/-- C1, counterexample: the scenario does not bound the time-to-first-byte
measured from navigation start. On this concrete run the scenario passes
while responseStart minus navigation start is 2600 ms, not under
2000 ms: the asserted metric is responseStart minus requestStart. -/
theorem loadPerformance_ttfb_not_from_navigation_start :
    scenarioPasses (loadPerformanceScenario perfNavStartEx) = true ∧
    ¬ ttfbFromNavigationStart perfNavStartEx < 2000 := by
  exact ⟨rfl, by decide⟩

/-- C1, amended: the scenario passes exactly when the wall-clock
DOM-content-loaded duration is under 8000 ms, the map canvas attached
within its 15000 ms timeout with a wall-clock attach duration under
15000 ms, and the time-to-first-byte taken from the navigation timing
entry as responseStart minus requestStart (request start, not
navigation start) is under 2000 ms. -/
theorem loadPerformance_passes_iff (o : PerfObs) :
    scenarioPasses (loadPerformanceScenario o) = true ↔
      (o.domLoadTime < 8000 ∧ o.mapAttached = true ∧ o.mapRenderTime < 15000 ∧
        o.responseStart - o.requestStart < 2000) := by
  simp [loadPerformanceScenario, computeMetrics, scenarioPasses_bind,
    scenarioPasses_expectThat]

/-- C4: in a run where the five category buttons were visible and the
venue-count heading resolved on both reads, the filter-toggling scenario
fails exactly when the text read after activating Fitness equals the
text read after activating Pool and beach. -/
theorem filterToggle_fails_iff_texts_equal (o : FilterObs)
    (h1 : o.poolBeachBtnVisible = true) (h2 : o.fitnessBtnVisible = true)
    (h3 : o.familyActivitiesBtnVisible = true) (h4 : o.diningBtnVisible = true)
    (h5 : o.waterparksBtnVisible = true)
    (h6 : o.headingFoundFirst = true) (h7 : o.headingFoundSecond = true) :
    scenarioPasses (filterToggleScenario o) = false ↔
      o.updatedText = o.initialText := by
  simp [filterToggleScenario, scenarioPasses_bind, scenarioPasses_expectThat,
    scenarioPasses_pure, scenarioPasses_throw, h1, h2, h3, h4, h5, h6, h7]

/-- A run of the filter-toggling scenario in which every preliminary step
succeeds and the two heading texts differ. -/
def filterToggleEx : FilterObs :=
  { poolBeachBtnVisible := true
  , fitnessBtnVisible := true
  , familyActivitiesBtnVisible := true
  , diningBtnVisible := true
  , waterparksBtnVisible := true
  , headingFoundFirst := true
  , initialText := some "24 venues"
  , headingFoundSecond := true
  , updatedText := some "13 venues" }

/-- C4, witness: the characterization instantiated at a concrete run. -/
theorem filterToggle_fails_iff_texts_equal_witness :
    (scenarioPasses (filterToggleScenario filterToggleEx) = false ↔
      filterToggleEx.updatedText = filterToggleEx.initialText) :=
  filterToggle_fails_iff_texts_equal filterToggleEx rfl rfl rfl rfl rfl rfl rfl

/-- C7: the map-interactivity scenario passes exactly when the map
container became visible, the canvas is attached, and then either zoom
controls exist (probed through the zoom-in control, as the source does)
and both the zoom-in and the zoom-out click completed without error, or
no zoom control exists and the canvas has a non-null bounding box with
strictly positive width and height. -/
theorem mapInteractive_passes_iff (o : MapObs) :
    scenarioPasses (mapInteractiveScenario o) = true ↔
      (o.mapContainerVisible = true ∧ o.canvasAttached = true ∧
        ((0 < o.zoomInCount ∧ o.zoomInClickOk = true ∧ o.zoomOutClickOk = true) ∨
          (o.zoomInCount = 0 ∧ ∃ b, o.boundingBox = some b ∧
            0 < b.width ∧ 0 < b.height))) := by
  rcases Nat.eq_zero_or_pos o.zoomInCount with hz | hz
  · cases hbox : o.boundingBox with
    | none =>
        simp [mapInteractiveScenario, hz, hbox, scenarioPasses_bind,
          scenarioPasses_expectThat, scenarioPasses_throw]
    | some b =>
        simp [mapInteractiveScenario, hz, hbox, scenarioPasses_bind,
          scenarioPasses_expectThat]
  · simp [mapInteractiveScenario, hz, Nat.pos_iff_ne_zero.mp hz,
      scenarioPasses_bind, scenarioPasses_expectThat, scenarioPasses_pure,
      scenarioPasses_throw, Nat.ne_of_gt hz]
    cases o.zoomInClickOk <;> cases o.zoomOutClickOk <;>
      simp [scenarioPasses_bind, scenarioPasses_throw, scenarioPasses_pure]

/-- A run of the venue-data scenario in which the show-venues control
exists but its label holds no digits: the digit-parsing branch is
skipped and the run passes. -/
def venueNoDigitsEx : VenueObs :=
  { loadingCount := 0
  , loadingHiddenInTime := true
  , showVenuesBtnCount := 1
  , showVenuesBtnText := some "Show venues"
  , imageCount := 3 }

/-- C6, counterexample: a show-venues control can exist while no N is
parsed from its label text at all; the scenario still passes, so a pass
does not guarantee a positive parsed venue count whenever the control
exists. -/
theorem venueData_passes_without_parsable_count :
    scenarioPasses (venueDataScenario venueNoDigitsEx) = true ∧
    0 < venueNoDigitsEx.showVenuesBtnCount ∧
    parsedVenueCount venueNoDigitsEx = none := by
  refine ⟨by decide, by decide, by decide⟩

/-- C6, amended: the venue-data scenario passes exactly when a present
loading indicator became hidden within its 15s timeout, any number
actually parsed from the label of an existing show-venues control is
positive (a null or digit-free label is skipped without an assertion),
and at least one image matching the image selectors is present. -/
theorem venueData_passes_iff (o : VenueObs) :
    scenarioPasses (venueDataScenario o) = true ↔
      ((0 < o.loadingCount → o.loadingHiddenInTime = true) ∧
        (∀ n, 0 < o.showVenuesBtnCount → parsedVenueCount o = some n → 0 < n) ∧
        0 < o.imageCount) := by
  rcases Nat.eq_zero_or_pos o.loadingCount with hl | hl <;>
    rcases Nat.eq_zero_or_pos o.showVenuesBtnCount with hs | hs <;>
      cases hp : parsedVenueCount o <;>
        simp [venueDataScenario, hl, hs, hp, Nat.pos_iff_ne_zero.mp,
          Nat.ne_of_gt, Nat.lt_irrefl, scenarioPasses_bind,
          scenarioPasses_expectThat, scenarioPasses_pure]

/-- A run of the navigation-links scenario in which two distinct links
match the dining accessible-name pattern; the source only inspects the
first match, so the run passes. -/
def navDuplicateEx : NavObs :=
  { poolBeachLinks := [{ attached := true, visible := true, href := some "/pool-beach" }]
  , gymFitnessLinks := [{ attached := true, visible := true, href := some "/fitness" }]
  , familyLinks := [{ attached := true, visible := true, href := some "/family" }]
  , diningLinks :=
      [ { attached := true, visible := true, href := some "/dining" }
      , { attached := true, visible := true, href := some "/restaurants" } ]
  , joinNowLinks := [{ attached := true, visible := true, href := some "/join" }] }

/-- C2, counterexample: the scenario does not require that an expected
nav item resolve to exactly one link. On this concrete page the dining
pattern matches two links and the scenario still passes. -/
theorem navLinks_passes_with_two_dining_matches :
    scenarioPasses (navLinksScenario navDuplicateEx) = true ∧
    navDuplicateEx.diningLinks.length ≠ 1 := by
  refine ⟨by decide, by decide⟩

/-- C2, amended: the navigation-links scenario passes exactly when every
expected nav item resolves to at least one link whose first match is
attached with a non-empty root-relative href, and the first join-now
match is visible with a non-empty href. -/
theorem navLinks_passes_iff (o : NavObs) :
    scenarioPasses (navLinksScenario o) = true ↔
      (navItemOk o.poolBeachLinks ∧ navItemOk o.gymFitnessLinks ∧
        navItemOk o.familyLinks ∧ navItemOk o.diningLinks ∧
        ∃ j, o.joinNowLinks.head? = some j ∧ j.visible = true ∧
          hrefTruthy j.href = true) := by
  cases hj : o.joinNowLinks with
  | nil =>
      simp [navLinksScenario, hj, scenarioPasses_bind, scenarioPasses_throw,
        scenarioPasses_checkNavItem]
  | cons j rest =>
      simp [navLinksScenario, hj, scenarioPasses_bind, scenarioPasses_expectThat,
        scenarioPasses_checkNavItem, List.head?]

/-- Closed form of one run of the mobile-viewport scenario: it passes
exactly when the three expectations hold, the context count at the end
is 0 on a pass (the close action ran) and 1 on a failure (the body was
aborted with the context still open). -/
theorem mobileViewportRun_eq (o : MobileObs) :
    mobileViewportRun o =
      ((decide (0 < o.menuToggleCount) && o.mapCanvasVisible &&
          !hasHorizontalOverflow o),
        if decide (0 < o.menuToggleCount) && o.mapCanvasVisible &&
            !hasHorizontalOverflow o then 0 else 1) := by
  by_cases h1 : 0 < o.menuToggleCount <;>
    cases h2 : o.mapCanvasVisible <;>
      cases h3 : hasHorizontalOverflow o <;>
        simp [mobileViewportRun, mobileViewportActions, runActions, h1, h2, h3]

/-- C8: the mobile-viewport scenario runs in a context configured with a
375 by 812 viewport and a mobile (iPhone Safari) user-agent string, and
passes exactly when a menu-toggle-like control matched, the map surface
became visible within its 15s timeout, and the document does not
overflow horizontally: scrollWidth is at most innerWidth. -/
theorem mobileViewport_passes_iff (o : MobileObs) :
    mobileContextOptions.viewport.width = 375 ∧
    mobileContextOptions.viewport.height = 812 ∧
    ((mobileViewportRun o).fst = true ↔
      (0 < o.menuToggleCount ∧ o.mapCanvasVisible = true ∧
        o.scrollWidth ≤ o.innerWidth)) := by
  refine ⟨rfl, rfl, ?_⟩
  rw [mobileViewportRun_eq]
  simp [hasHorizontalOverflow, not_lt, and_assoc]

/-- A run of the mobile-viewport scenario in which no menu-toggle-like
control matched: the first expectation fails and the body is aborted
before the context is closed. -/
def mobileMissingMenuEx : MobileObs :=
  { menuToggleCount := 0
  , mapCanvasVisible := true
  , scrollWidth := 375
  , innerWidth := 375 }

/-- C9, counterexample: a failing run of the mobile-viewport scenario
ends with its manually created browser context still open, because the
close call is the last statement of the body and a failed expectation
aborts the body before reaching it. -/
theorem mobileViewport_context_left_open :
    (mobileViewportRun mobileMissingMenuEx).snd = 1 ∧
    (mobileViewportRun mobileMissingMenuEx).fst = false := by
  refine ⟨by decide, by decide⟩

/-- C9, amended: on every run of the mobile-viewport scenario in which
all expectations pass, the manually created browser context is closed
before the scenario body ends; no other scenario creates a context by
hand. -/
theorem mobileViewport_closes_context_on_pass (o : MobileObs)
    (h : (mobileViewportRun o).fst = true) :
    (mobileViewportRun o).snd = 0 := by
  rw [mobileViewportRun_eq] at h ⊢
  simp only at h
  simp [h]

/-- A passing run of the mobile-viewport scenario. -/
def mobilePassEx : MobileObs :=
  { menuToggleCount := 2
  , mapCanvasVisible := true
  , scrollWidth := 375
  , innerWidth := 375 }

/-- C9, witness: a concrete passing run leaves zero contexts open. -/
theorem mobileViewport_closes_context_on_pass_witness :
    (mobileViewportRun mobilePassEx).snd = 0 :=
  mobileViewport_closes_context_on_pass mobilePassEx (by decide)
